import Mathlib

/-!
Verification development for the flyingwx weather-parsing and
station-classification core.

The TypeScript sources are embedded shallowly:

* strings are `List Char`; the JavaScript regular-expression searches used by
  the code are embedded as explicit leftmost-match scanners with the exact
  backtracking order of the JS engine (alternatives in order, greedy
  quantifiers);
* JS `number` values that may hold the `Infinity` sentinel are modelled by
  `JNum` (a rational or infinity); other numeric values are rationals or
  integers (timestamps are milliseconds since the epoch);
* the fallible/external parts (HTTP fetching, caching) are dropped; the pure
  computations they feed (`fetchPIREPs`' mapping/filtering, and
  `fetchStationStatus`' operational-status computation) are embedded as pure
  functions of their already-fetched inputs and of the current time.
-/

/-- JS `number` restricted to the values this code manipulates: a rational,
or the `Infinity` sentinel used by `parseWeatherLine` for absent fields. -/
inductive JNum where
  | fin (q : ℚ) : JNum
  | inf : JNum
deriving DecidableEq

/-- JS `a >= q` for `a` a possibly-infinite number and `q` finite
(`Infinity >= q` is true for every finite `q`). -/
def JNum.jge (a : JNum) (q : ℚ) : Bool :=
  match a with
  | JNum.inf => true
  | JNum.fin x => decide (q ≤ x)

/-- `src/types/weather.ts`: `ParsedWeatherConditions`. -/
structure ParsedWeatherConditions where
  ceiling : JNum
  visMiles : JNum
  isGreater : Bool
deriving DecidableEq

/-- `src/types/weather.ts`: `Minima` (two plain numbers). -/
structure Minima where
  ceiling : ℚ
  vis : ℚ
deriving DecidableEq

/-- Numeric value of an ASCII digit character. -/
def digitVal (c : Char) : Nat := c.toNat - 48

/-- Match a literal character sequence at the head of `s`, returning the
rest of `s` on success (the regex-literal building block). -/
def dropLit : List Char → List Char → Option (List Char)
  | [], s => some s
  | _ :: _, [] => none
  | p :: ps, c :: cs => if c = p then dropLit ps cs else none

/-- Regex `\d{3}` at the head of `s`: exactly three digits, whose numeric
value is returned (further characters are unconstrained). -/
def digit3 : List Char → Option Nat
  | d1 :: d2 :: d3 :: _ =>
      if d1.isDigit && d2.isDigit && d3.isDigit then
        some (digitVal d1 * 100 + digitVal d2 * 10 + digitVal d3)
      else none
  | _ => none

/-- Regex `(BKN|OVC|VV)(\d{3})` anchored at the head of `s`: the JS engine
tries the alternatives in order; returns the value of the digit group. -/
def cloudHere (s : List Char) : Option Nat :=
  ((dropLit ['B', 'K', 'N'] s).bind digit3) <|>
  ((dropLit ['O', 'V', 'C'] s).bind digit3) <|>
  ((dropLit ['V', 'V'] s).bind digit3)

/-- Leftmost match of `(BKN|OVC|VV)(\d{3})` in `s`
(JS `line.match(/(BKN|OVC|VV)(\d{3})/)`), as the digit-group value. -/
def findCloud : List Char → Option Nat
  | [] => none
  | c :: cs => cloudHere (c :: cs) <|> findCloud cs

/-- Does `s` start with the literal characters `SM`? -/
def smAfter : List Char → Bool
  | 'S' :: 'M' :: _ => true
  | _ => false

/-- Regex `\d{1,2}SM` anchored at the head of `s`, with the JS greedy
backtracking order: two digits then `SM`, else one digit then `SM`.
Returns the numeric value of the digit group. -/
def visDigits : List Char → Option Nat
  | d1 :: d2 :: rest =>
      if d1.isDigit then
        if d2.isDigit && smAfter rest then some (digitVal d1 * 10 + digitVal d2)
        else if smAfter (d2 :: rest) then some (digitVal d1)
        else none
      else none
  | _ => none

/-- Regex `(P?\d{1,2})SM` anchored at the head of `s`: the optional `P` is
tried greedily first. Returns (`P` present, digit-group value). -/
def visHere (s : List Char) : Option (Bool × Nat) :=
  match s with
  | 'P' :: rest =>
      match visDigits rest with
      | some n => some (true, n)
      | none => (visDigits s).map (fun n => (false, n))
  | _ => (visDigits s).map (fun n => (false, n))

/-- Leftmost match of `(P?\d{1,2})SM` in `s`
(JS `line.match(/(P?\d{1,2})SM/)`). -/
def findVis : List Char → Option (Bool × Nat)
  | [] => none
  | c :: cs => visHere (c :: cs) <|> findVis cs

/-- `src/lib/weatherParser.ts`: `parseWeatherLine`. Ceiling from the first
`(BKN|OVC|VV)(\d{3})` match (hundreds of feet), visibility from the first
`(P?\d{1,2})SM` match, `Infinity` sentinels when absent. -/
def parseWeatherLine (line : List Char) : ParsedWeatherConditions :=
  let ceiling : JNum :=
    match findCloud line with
    | some n => JNum.fin ((n * 100 : ℕ) : ℚ)
    | none => JNum.inf
  let vis : JNum × Bool :=
    match findVis line with
    | some (g, n) => (JNum.fin (n : ℚ), g)
    | none => (JNum.inf, false)
  { ceiling := ceiling, visMiles := vis.1, isGreater := vis.2 }

/-- `src/lib/weatherParser.ts`: `checkConditionsAgainstMinima`. -/
def checkConditionsAgainstMinima (c : ParsedWeatherConditions) (m : Minima) : Bool :=
  let visOk := c.isGreater || c.visMiles.jge m.vis
  let ceilOk := c.ceiling.jge m.ceiling
  visOk && ceilOk

/-- The whitespace class used by JS `String.prototype.trim` (restricted to
the code points that can occur here: ASCII whitespace and NBSP). -/
def isJsSpace (c : Char) : Bool :=
  c = ' ' || c = '\t' || c = '\n' || c = '\r' ||
  c.toNat = 11 || c.toNat = 12 || c.toNat = 160

/-- JS `line.trim()`: strip leading and trailing whitespace. -/
def jsTrim (s : List Char) : List Char :=
  ((s.dropWhile isJsSpace).reverse.dropWhile isJsSpace).reverse

/-- JS `rawText.split('\n')`: split on every newline, keeping empty pieces
(`""` splits to `[""]`). -/
def splitLines : List Char → List (List Char)
  | [] => [[]]
  | c :: t =>
      let r := splitLines t
      if c = '\n' then [] :: r
      else
        match r with
        | h :: t2 => (c :: h) :: t2
        | [] => [[c]]

/-- One line of `highlightWeatherText`'s `lines.map(...)` body: the html
fragment produced for the line, and whether the line set `hasViolations`. -/
def renderLine (m : Minima) (line : List Char) : List Char × Bool :=
  let t := jsTrim line
  if t.isEmpty then (("<div></div>").data, false)
  else
    let c := parseWeatherLine t
    let meets := checkConditionsAgainstMinima c m
    if !meets && (decide (c.ceiling ≠ JNum.inf) || decide (c.visMiles ≠ JNum.inf)) then
      (("<div class=\"text-red-400 font-bold\">").data ++ t ++ ("</div>").data, true)
    else
      (("<div>").data ++ t ++ ("</div>").data, false)

/-- The fold over lines performed by `highlightWeatherText`: html fragments
are joined in order, and the mutable `hasViolations` flag is the running OR
of the per-line flags. -/
def highlightStep (m : Minima) (acc : List Char × Bool) (line : List Char) : List Char × Bool :=
  let r := renderLine m line
  (acc.1 ++ r.1, acc.2 || r.2)

/-- Result type of `highlightWeatherText`. -/
structure HighlightResult where
  html : List Char
  hasViolations : Bool
deriving DecidableEq

/-- `src/lib/weatherParser.ts`: `highlightWeatherText`. Empty or
whitespace-only input short-circuits to `{html: '', hasViolations: false}`;
otherwise each line is trimmed, parsed and checked, violating lines are
wrapped in a red-styled div, and the fragments are joined. -/
def highlightWeatherText (rawText : List Char) (m : Minima) : HighlightResult :=
  if (jsTrim rawText).isEmpty then { html := [], hasViolations := false }
  else
    let p := (splitLines rawText).foldl (highlightStep m) ([], false)
    { html := p.1, hasViolations := p.2 }

/-- JS `String.prototype.startsWith` on char lists. -/
def startsWithL : List Char → List Char → Bool
  | _, [] => true
  | [], _ :: _ => false
  | c :: cs, p :: ps => c = p && startsWithL cs ps

/-- JS `String.prototype.includes` on char lists (substring test). -/
def containsL : List Char → List Char → Bool
  | [], needle => startsWithL [] needle
  | c :: t, needle => startsWithL (c :: t) needle || containsL t needle

/-- JS `String.prototype.toLowerCase` (ASCII range, which covers every
keyword the extractors compare against). -/
def toLowerL (s : List Char) : List Char := s.map Char.toLower

/-- Turbulence intensity enum from `src/types/weather.ts`. -/
inductive TurbIntensity where
  | NONE | LIGHT | MODERATE | SEVERE
deriving DecidableEq

/-- Icing intensity enum from `src/types/weather.ts`. -/
inductive IcingIntensity where
  | NONE | TRACE | LIGHT | MODERATE | SEVERE
deriving DecidableEq

/-- SIGMET severity enum from `src/types/weather.ts`. -/
inductive SigmetSeverity where
  | LIGHT | MODERATE | SEVERE
deriving DecidableEq

/-- Operational status enum from `src/types/weather.ts`. -/
inductive OpStatus where
  | NORMAL | CAUTION | CRITICAL
deriving DecidableEq

/-- `mapTurbulenceIntensity` from the weather-api module: the intensity text
(already resolved from `condition.intensity || condition.type || condition`;
`none` models an absent/falsy condition) is lowercased and matched against
keywords in priority order. -/
def mapTurbulenceIntensity (condition : Option (List Char)) : TurbIntensity :=
  match condition with
  | none => TurbIntensity.NONE
  | some c =>
      let intensity := toLowerL c
      if containsL intensity (("severe").data) || containsL intensity (("extreme").data) then
        TurbIntensity.SEVERE
      else if containsL intensity (("moderate").data) then TurbIntensity.MODERATE
      else if containsL intensity (("light").data) || containsL intensity (("weak").data) then
        TurbIntensity.LIGHT
      else TurbIntensity.NONE

/-- `mapIcingIntensity` from the weather-api module. -/
def mapIcingIntensity (condition : Option (List Char)) : IcingIntensity :=
  match condition with
  | none => IcingIntensity.NONE
  | some c =>
      let intensity := toLowerL c
      if containsL intensity (("severe").data) || containsL intensity (("heavy").data) then
        IcingIntensity.SEVERE
      else if containsL intensity (("moderate").data) then IcingIntensity.MODERATE
      else if containsL intensity (("light").data) then IcingIntensity.LIGHT
      else if containsL intensity (("trace").data) then IcingIntensity.TRACE
      else IcingIntensity.NONE

/-- The fields of a normalized PIREP that the expiry logic and the
classifier read (timestamps are milliseconds since the epoch). -/
structure PIREP where
  turbulence : TurbIntensity
  icing : IcingIntensity
  timestamp : ℤ
  isExpired : Bool
deriving DecidableEq

/-- The fields of a raw API PIREP payload that `fetchPIREPs` reads: the
resolved report time (`reportTime || obsTime`, `none` when absent so that
the code falls back to `Date.now()`), and the two condition texts. -/
structure RawPIREP where
  time : Option ℤ
  turbulenceCondition : Option (List Char)
  icingCondition : Option (List Char)
deriving DecidableEq

/-- The pure mapping/filtering core of `fetchPIREPs`: each payload entry is
normalized (expiry computed against `now - 12h`), then entries older than
12 hours are dropped. -/
def fetchPIREPsPure (now : ℤ) (data : List RawPIREP) : List PIREP :=
  let twelveHoursAgo : ℤ := now - 43200000
  (data.map (fun r =>
      let ts := r.time.getD now
      { turbulence := mapTurbulenceIntensity r.turbulenceCondition
        icing := mapIcingIntensity r.icingCondition
        timestamp := ts
        isExpired := decide (ts < twelveHoursAgo) : PIREP })).filter
    (fun p => decide (twelveHoursAgo ≤ p.timestamp))

/-- The fields of a normalized SIGMET that the classifier reads. -/
structure SIGMET where
  severity : SigmetSeverity
  isActive : Bool
deriving DecidableEq

/-- The METAR fetch result as the classifier sees it (`error` is the
truthiness of the optional error string). -/
structure WeatherData where
  metar : List Char
  error : Bool
deriving DecidableEq

/-- A visibility group matched by the METAR visibility regex
`(\d+(?:\s+\d+\/\d+)?|\d+\/\d+)SM`: after the JS code strips whitespace
from the captured text, it is either a whole number or `num/den`. -/
inductive VisTok where
  | whole (n : ℕ) : VisTok
  | frac (num den : ℕ) : VisTok
deriving DecidableEq

/-- Numeric value of a digit string (JS `parseInt` on an all-digit text). -/
def digitsVal (ds : List Char) : Nat :=
  ds.foldl (fun a c => a * 10 + digitVal c) 0

/-- The METAR visibility regex anchored at the head of `s`, in the JS
engine's order: first alternative `\d+(?:\s+\d+\/\d+)?` (the optional
fraction group tried greedily first), then `\d+\/\d+`, each followed by
`SM`. Greedy `\d+`/`\s+` need no backtracking because each is followed by a
character its own class excludes. -/
def visMetarHere (s : List Char) : Option VisTok :=
  let d1 := s.takeWhile Char.isDigit
  let r1 := s.dropWhile Char.isDigit
  if d1.isEmpty then none
  else
    let withFrac : Option VisTok :=
      let ws := r1.takeWhile isJsSpace
      let r2 := r1.dropWhile isJsSpace
      if ws.isEmpty then none
      else
        let d2 := r2.takeWhile Char.isDigit
        let r3 := r2.dropWhile Char.isDigit
        if d2.isEmpty then none
        else
          match r3 with
          | '/' :: r4 =>
              let d3 := r4.takeWhile Char.isDigit
              let r5 := r4.dropWhile Char.isDigit
              if !d3.isEmpty && smAfter r5 then
                some (VisTok.frac (digitsVal (d1 ++ d2)) (digitsVal d3))
              else none
          | _ => none
    match withFrac with
    | some v => some v
    | none =>
        if smAfter r1 then some (VisTok.whole (digitsVal d1))
        else
          match r1 with
          | '/' :: r4 =>
              let d3 := r4.takeWhile Char.isDigit
              let r5 := r4.dropWhile Char.isDigit
              if !d3.isEmpty && smAfter r5 then
                some (VisTok.frac (digitsVal d1) (digitsVal d3))
              else none
          | _ => none

/-- Leftmost match of the METAR visibility regex. -/
def findVisMetar : List Char → Option VisTok
  | [] => none
  | c :: cs => visMetarHere (c :: cs) <|> findVisMetar cs

/-- Regex `(BKN|OVC)(\d{3})` anchored at the head of `s` (the METAR ceiling
parse has no `VV` alternative). -/
def ceilMetarHere (s : List Char) : Option Nat :=
  ((dropLit ['B', 'K', 'N'] s).bind digit3) <|>
  ((dropLit ['O', 'V', 'C'] s).bind digit3)

/-- Leftmost match of `(BKN|OVC)(\d{3})` in `s`. -/
def findCeilMetar : List Char → Option Nat
  | [] => none
  | c :: cs => ceilMetarHere (c :: cs) <|> findCeilMetar cs

/-- Result of `parseMetarConditions`. -/
structure MetarConditions where
  visibility : ℚ
  ceiling : ℚ
deriving DecidableEq

/-- `parseMetarConditions` from the weather-api module: visibility in
statute miles (default 10; a fraction with denominator 0 keeps the
default), ceiling in feet from the first `BKN`/`OVC` layer (default 5000). -/
def parseMetarConditions (metar : List Char) : MetarConditions :=
  let visibility : ℚ :=
    match findVisMetar metar with
    | some (VisTok.whole n) => (n : ℚ)
    | some (VisTok.frac num den) => if den ≠ 0 then mkRat num den else 10
    | none => 10
  let ceiling : ℚ :=
    match findCeilMetar metar with
    | some n => ((n * 100 : ℕ) : ℚ)
    | none => 5000
  { visibility := visibility, ceiling := ceiling }

/-- The station-mismatch guard at the top of `fetchStationStatus`: a
non-empty METAR that does not contain the requested ICAO is discarded and
replaced by an error. -/
def metarAdjust (icao : List Char) (wd : WeatherData) : WeatherData :=
  if !wd.metar.isEmpty && !containsL wd.metar icao then { metar := [], error := true }
  else wd

/-- The SIGMET/PIREP hazard evaluation of `fetchStationStatus`: active
severe SIGMETs or non-expired severe PIREPs give CRITICAL; otherwise any
active SIGMET or a non-expired moderate PIREP gives CAUTION. -/
def hazardStatus (pireps : List PIREP) (sigmets : List SIGMET) : OpStatus :=
  let activeSevereSigmets :=
    sigmets.filter (fun s => s.isActive && decide (s.severity = SigmetSeverity.SEVERE))
  let severePireps :=
    pireps.filter (fun p =>
      !p.isExpired &&
        (decide (p.turbulence = TurbIntensity.SEVERE) || decide (p.icing = IcingIntensity.SEVERE)))
  if activeSevereSigmets.length > 0 || severePireps.length > 0 then OpStatus.CRITICAL
  else if sigmets.any (fun s => s.isActive) ||
      pireps.any (fun p =>
        !p.isExpired &&
          (decide (p.turbulence = TurbIntensity.MODERATE) ||
            decide (p.icing = IcingIntensity.MODERATE))) then OpStatus.CAUTION
  else OpStatus.NORMAL

/-- The METAR analysis step of `fetchStationStatus`: run only on a
non-empty METAR; visibility below a half mile or ceiling below 100 ft
forces CRITICAL, visibility below 1 mile or ceiling below 200 ft raises
NORMAL to CAUTION and never downgrades. -/
def metarStep (metar : List Char) (st : OpStatus) : OpStatus :=
  if metar.isEmpty then st
  else
    let c := parseMetarConditions metar
    if decide (c.visibility < mkRat 1 2) || decide (c.ceiling < 100) then OpStatus.CRITICAL
    else if decide (c.visibility < 1) || decide (c.ceiling < 200) then
      (if st = OpStatus.NORMAL then OpStatus.CAUTION else st)
    else st

/-- The operational-status computation of `fetchStationStatus` as a pure
function of its already-fetched inputs: apply the station-mismatch guard, a
METAR error is CRITICAL outright, otherwise the hazard evaluation followed
by the METAR analysis. -/
def computeOperationalStatus (icao : List Char) (wd0 : WeatherData)
    (pireps : List PIREP) (sigmets : List SIGMET) : OpStatus :=
  let wd := metarAdjust icao wd0
  if wd.error then OpStatus.CRITICAL
  else metarStep wd.metar (hazardStatus pireps sigmets)
/-- Claim-side per-line violation predicate, written from the spec's words:
the line (after trimming, as the code trims before parsing) fails the
minima check AND at least one of ceiling/visMiles was actually parsed
(not both still at the infinity sentinel). -/
def lineViolationSpec (m : Minima) (l : List Char) : Bool :=
  let c := parseWeatherLine (jsTrim l)
  !checkConditionsAgainstMinima c m &&
    !(decide (c.ceiling = JNum.inf) && decide (c.visMiles = JNum.inf))

/-- Claim-side turbulence mapping, written from the spec's words: keywords
exactly SEVERE, MODERATE, LIGHT in priority order, case-insensitive
substring match, default NONE. For comparison with
`mapTurbulenceIntensity`. -/
def specMapTurbulence (condition : Option (List Char)) : TurbIntensity :=
  match condition with
  | none => TurbIntensity.NONE
  | some c =>
      let intensity := toLowerL c
      if containsL intensity (("severe").data) then TurbIntensity.SEVERE
      else if containsL intensity (("moderate").data) then TurbIntensity.MODERATE
      else if containsL intensity (("light").data) then TurbIntensity.LIGHT
      else TurbIntensity.NONE

/-- Claim-side icing mapping, written from the spec's words: keywords
exactly SEVERE, MODERATE, LIGHT, TRACE in priority order. For comparison
with `mapIcingIntensity`. -/
def specMapIcing (condition : Option (List Char)) : IcingIntensity :=
  match condition with
  | none => IcingIntensity.NONE
  | some c =>
      let intensity := toLowerL c
      if containsL intensity (("severe").data) then IcingIntensity.SEVERE
      else if containsL intensity (("moderate").data) then IcingIntensity.MODERATE
      else if containsL intensity (("light").data) then IcingIntensity.LIGHT
      else if containsL intensity (("trace").data) then IcingIntensity.TRACE
      else IcingIntensity.NONE

/-- First-match-wins keyword classification: walk the priority list and
return the value of the first keyword group with a member occurring in
`s`; `d` when none matches. The shape the amended C8 compares the
extractors against. -/
def firstKeywordMatch {α : Type} (s : List Char) : List (List (List Char) × α) → α → α
  | [], d => d
  | (kws, v) :: rest, d =>
      if kws.any (fun kw => containsL s kw) then v else firstKeywordMatch s rest d

/-- C1 counterexample: on the line of Scenario A the visibility regex
`(P?\d{1,2})SM` matches the `2SM` inside `1/2SM`, so `parseWeatherLine`
yields visMiles = 2 (not 0.5), `checkConditionsAgainstMinima` returns true
(not false) for minima {ceiling:500, vis:1}, and the highlighter does not
flag the line. -/
theorem C1_counterexample :
    (parseWeatherLine (("KJFK 291951Z 18010KT 1/2SM BKN005").data)).visMiles = JNum.fin 2 ∧
    checkConditionsAgainstMinima
      (parseWeatherLine (("KJFK 291951Z 18010KT 1/2SM BKN005").data))
      { ceiling := 500, vis := 1 } = true ∧
    (highlightWeatherText (("KJFK 291951Z 18010KT 1/2SM BKN005").data)
      { ceiling := 500, vis := 1 }).hasViolations = false := by decide

/-- C1 amended: for the line "KJFK 291951Z 18010KT 1/2SM BKN005" and minima
{ceiling:500, vis:1}, `parseWeatherLine` yields ceiling = 500 and
visMiles = 2 (the 1-2 digit visibility pattern matches the denominator
digit before `SM`; fractions are not parsed by this parser),
`checkConditionsAgainstMinima` returns true, and the highlighter leaves the
line unflagged. -/
theorem C1_amended_thm :
    parseWeatherLine (("KJFK 291951Z 18010KT 1/2SM BKN005").data) =
      { ceiling := JNum.fin 500, visMiles := JNum.fin 2, isGreater := false } ∧
    checkConditionsAgainstMinima
      (parseWeatherLine (("KJFK 291951Z 18010KT 1/2SM BKN005").data))
      { ceiling := 500, vis := 1 } = true ∧
    highlightWeatherText (("KJFK 291951Z 18010KT 1/2SM BKN005").data)
      { ceiling := 500, vis := 1 } =
      { html := ("<div>KJFK 291951Z 18010KT 1/2SM BKN005</div>").data,
        hasViolations := false } := by decide

/-- C5: a line in which neither the cloud-layer regex `(BKN|OVC|VV)(\d{3})`
nor the visibility regex `(P?\d{1,2})SM` matches parses to both infinity
sentinels with isGreater = false, and such conditions meet every minima. -/
theorem C5_thm (line : List Char) (m : Minima)
    (hc : findCloud line = none) (hv : findVis line = none) :
    parseWeatherLine line =
      { ceiling := JNum.inf, visMiles := JNum.inf, isGreater := false } ∧
    checkConditionsAgainstMinima (parseWeatherLine line) m = true := by
  have hp : parseWeatherLine line =
      { ceiling := JNum.inf, visMiles := JNum.inf, isGreater := false } := by
    unfold parseWeatherLine
    rw [hc, hv]
  exact ⟨hp, by rw [hp]; rfl⟩

/-- C5 witness: a remarks-style line with no weather tokens, against strict
minima. -/
theorem C5_witness :
    parseWeatherLine (("NOSIG RMK AO2").data) =
      { ceiling := JNum.inf, visMiles := JNum.inf, isGreater := false } ∧
    checkConditionsAgainstMinima (parseWeatherLine (("NOSIG RMK AO2").data))
      { ceiling := 5000, vis := 6 } = true :=
  C5_thm (("NOSIG RMK AO2").data) { ceiling := 5000, vis := 6 } (by decide) (by decide)

/-- C7 counterexample: the claim quantifies over every ParsedConditions
record whatsoever, but a record with negative parsed values (expressible,
since the record fields are plain JS numbers) fails the check even against
minima with ceiling = 0 <= 0 and vis = 0 <= 0. -/
theorem C7_counterexample :
    ((0 : ℚ) ≤ 0 ∧ (0 : ℚ) ≤ 0) ∧
    checkConditionsAgainstMinima
      { ceiling := JNum.fin (-1), visMiles := JNum.fin (-1), isGreater := false }
      { ceiling := 0, vis := 0 } = false := by decide

/-- C7 amended: for every minima with ceiling <= 0 and vis <= 0, the
conditions parsed from any actual line (whose numeric fields are
nonnegative or infinite by construction) always meet the minima. -/
theorem C7_amended_thm (m : Minima) (hc : m.ceiling ≤ 0) (hv : m.vis ≤ 0)
    (line : List Char) :
    checkConditionsAgainstMinima (parseWeatherLine line) m = true := by
  unfold parseWeatherLine checkConditionsAgainstMinima
  rcases hcl : findCloud line with _ | n <;>
    rcases hvs : findVis line with _ | ⟨g, k⟩ <;>
      simp only [JNum.jge, Bool.and_eq_true, Bool.or_eq_true, decide_eq_true_eq] <;>
      constructor <;>
      first
        | exact Or.inl rfl
        | exact Or.inr (hv.trans (Nat.cast_nonneg _))
        | exact Or.inr trivial
        | exact hc.trans (Nat.cast_nonneg _)
        | trivial

/-- C7 amended witness: nonpositive minima met by a line reporting an
indefinite ceiling at 0 ft and 0 SM visibility. -/
theorem C7_witness :
    checkConditionsAgainstMinima (parseWeatherLine (("0SM VV000").data))
      { ceiling := -1, vis := 0 } = true :=
  C7_amended_thm { ceiling := -1, vis := 0 } (by decide) (by decide) (("0SM VV000").data)

/-- C9: every PIREP in the list returned by the PIREP extractor has a
timestamp at least now - 12h (43,200,000 ms), and therefore
isExpired = false: reports older than 12 hours are removed from the output
entirely, so no consumer observes an expired PIREP. -/
theorem C9_thm (now : ℤ) (data : List RawPIREP) (p : PIREP)
    (hp : p ∈ fetchPIREPsPure now data) :
    p.isExpired = false ∧ now - 43200000 ≤ p.timestamp := by
  unfold fetchPIREPsPure at hp
  rw [List.mem_filter] at hp
  obtain ⟨hmem, hts⟩ := hp
  rw [decide_eq_true_eq] at hts
  refine ⟨?_, hts⟩
  rw [List.mem_map] at hmem
  obtain ⟨r, _, hpr⟩ := hmem
  have hexp : p.isExpired = decide (p.timestamp < now - 43200000) := by
    rw [← hpr]
  rw [hexp, decide_eq_false_iff_not]
  omega

/-- C9 witness: a report 5 ms old survives the filter unexpired. -/
theorem C9_witness :
    ({ turbulence := TurbIntensity.NONE, icing := IcingIntensity.NONE,
       timestamp := -5, isExpired := false } : PIREP).isExpired = false ∧
    (0 : ℤ) - 43200000 ≤
      ({ turbulence := TurbIntensity.NONE, icing := IcingIntensity.NONE,
         timestamp := -5, isExpired := false } : PIREP).timestamp :=
  C9_thm 0 [{ time := some (-5), turbulenceCondition := none, icingCondition := none }]
    _ (by decide)

/-- C10: the classifier's internal METAR parse defaults the ceiling to
5000 ft when no BKN/OVC three-digit group matches and the visibility to
10 mi when no SM group matches (finite good-weather defaults, not the
infinity sentinel); a vertical-visibility group `VV###` is not matched by
this parse, so a METAR reporting only VV000 leaves the classifier at
NORMAL. -/
theorem C10_thm :
    (∀ metar : List Char, findCeilMetar metar = none →
      (parseMetarConditions metar).ceiling = 5000) ∧
    (∀ metar : List Char, findVisMetar metar = none →
      (parseMetarConditions metar).visibility = 10) ∧
    findCeilMetar (("KJFK 120000Z VV000").data) = none ∧
    computeOperationalStatus (("KJFK").data)
      { metar := ("KJFK 120000Z VV000").data, error := false } [] [] =
      OpStatus.NORMAL := by
  refine ⟨?_, ?_, by decide, by decide⟩
  · intro metar h
    unfold parseMetarConditions
    rw [h]
  · intro metar h
    unfold parseMetarConditions
    rw [h]

/-- C10 witness: the defaults evaluated on a METAR consisting of a lone
vertical-visibility group. -/
theorem C10_witness :
    (parseMetarConditions (("VV000").data)).ceiling = 5000 ∧
    (parseMetarConditions (("VV000").data)).visibility = 10 :=
  ⟨C10_thm.1 (("VV000").data) (by decide), C10_thm.2.1 (("VV000").data) (by decide)⟩

/-- C8 counterexample: the extractors also match synonym keywords absent
from the claim's list: turbulence maps "extreme" to SEVERE and icing maps
"heavy" to SEVERE, whereas the claimed mapping (substring match against
SEVERE/MODERATE/LIGHT/TRACE only, unmatched input to NONE) yields NONE on
these inputs. -/
theorem C8_counterexample :
    mapTurbulenceIntensity (some (("extreme chop").data)) = TurbIntensity.SEVERE ∧
    specMapTurbulence (some (("extreme chop").data)) = TurbIntensity.NONE ∧
    mapIcingIntensity (some (("heavy rime").data)) = IcingIntensity.SEVERE ∧
    specMapIcing (some (("heavy rime").data)) = IcingIntensity.NONE := by decide

/-- C8 amended: the extractors are case-insensitive substring matchers
tried in priority order with first-match-wins and default NONE, where the
priority list carries keyword groups including the code's synonyms:
turbulence {severe, extreme} -> SEVERE, {moderate} -> MODERATE,
{light, weak} -> LIGHT; icing {severe, heavy} -> SEVERE,
{moderate} -> MODERATE, {light} -> LIGHT, {trace} -> TRACE; absent input
maps to NONE, and the result depends only on the lowercased text. -/
theorem C8_amended_thm (c : List Char) :
    mapTurbulenceIntensity none = TurbIntensity.NONE ∧
    mapIcingIntensity none = IcingIntensity.NONE ∧
    mapTurbulenceIntensity (some c) =
      firstKeywordMatch (toLowerL c)
        [([("severe").data, ("extreme").data], TurbIntensity.SEVERE),
         ([("moderate").data], TurbIntensity.MODERATE),
         ([("light").data, ("weak").data], TurbIntensity.LIGHT)] TurbIntensity.NONE ∧
    mapIcingIntensity (some c) =
      firstKeywordMatch (toLowerL c)
        [([("severe").data, ("heavy").data], IcingIntensity.SEVERE),
         ([("moderate").data], IcingIntensity.MODERATE),
         ([("light").data], IcingIntensity.LIGHT),
         ([("trace").data], IcingIntensity.TRACE)] IcingIntensity.NONE ∧
    (∀ d : List Char, toLowerL c = toLowerL d →
      mapTurbulenceIntensity (some c) = mapTurbulenceIntensity (some d) ∧
      mapIcingIntensity (some c) = mapIcingIntensity (some d)) := by
  refine ⟨rfl, rfl, ?_, ?_, ?_⟩
  · simp only [mapTurbulenceIntensity, firstKeywordMatch, List.any_cons, List.any_nil,
      Bool.or_false]
  · simp only [mapIcingIntensity, firstKeywordMatch, List.any_cons, List.any_nil,
      Bool.or_false]
  · intro d h
    constructor
    · simp only [mapTurbulenceIntensity]
      rw [h]
    · simp only [mapIcingIntensity]
      rw [h]

/-- C8 amended witness: the mapping at a concrete mixed-case input, and
its agreement with the lowercased input. -/
theorem C8_witness :
    mapTurbulenceIntensity (some (("SEVERE TURB").data)) =
      mapTurbulenceIntensity (some (("severe turb").data)) ∧
    mapIcingIntensity (some (("SEVERE TURB").data)) =
      mapIcingIntensity (some (("severe turb").data)) :=
  (C8_amended_thm (("SEVERE TURB").data)).2.2.2.2 (("severe turb").data) (by decide)

/-- The METAR analysis step never downgrades CRITICAL. -/
theorem metarStep_CRITICAL (metar : List Char) :
    metarStep metar OpStatus.CRITICAL = OpStatus.CRITICAL := by
  unfold metarStep
  repeat' split <;> simp

/-- The METAR analysis step maps CAUTION to CAUTION or CRITICAL. -/
theorem metarStep_CAUTION (metar : List Char) :
    metarStep metar OpStatus.CAUTION = OpStatus.CAUTION ∨
    metarStep metar OpStatus.CAUTION = OpStatus.CRITICAL := by
  unfold metarStep
  dsimp only
  split_ifs <;> simp_all

/-- The hazard evaluation yields CRITICAL whenever some SIGMET is active
and severe or some non-expired PIREP reports severe turbulence or icing. -/
theorem hazardStatus_CRITICAL (pireps : List PIREP) (sigmets : List SIGMET)
    (h : (∃ s ∈ sigmets, s.isActive = true ∧ s.severity = SigmetSeverity.SEVERE) ∨
      (∃ p ∈ pireps, p.isExpired = false ∧
        (p.turbulence = TurbIntensity.SEVERE ∨ p.icing = IcingIntensity.SEVERE))) :
    hazardStatus pireps sigmets = OpStatus.CRITICAL := by
  unfold hazardStatus
  rcases h with ⟨s, hs, ha, hsev⟩ | ⟨p, hp, he, hsev⟩
  · have hmem : s ∈ sigmets.filter
        (fun s => s.isActive && decide (s.severity = SigmetSeverity.SEVERE)) :=
      List.mem_filter.mpr ⟨hs, by rw [ha, hsev]; rfl⟩
    have hlen := List.length_pos_of_mem hmem
    rw [if_pos (by simp only [Bool.or_eq_true, decide_eq_true_eq]; exact Or.inl hlen)]
  · have hmem : p ∈ pireps.filter
        (fun p => !p.isExpired &&
          (decide (p.turbulence = TurbIntensity.SEVERE) ||
            decide (p.icing = IcingIntensity.SEVERE))) := by
      refine List.mem_filter.mpr ⟨hp, ?_⟩
      rw [he]
      rcases hsev with h1 | h1 <;> simp [h1]
    have hlen := List.length_pos_of_mem hmem
    rw [if_pos (by simp only [Bool.or_eq_true, decide_eq_true_eq]; exact Or.inr hlen)]

/-- The hazard evaluation yields CAUTION when no severe signal is present
but some SIGMET is active or some non-expired PIREP reports moderate
turbulence or icing. -/
theorem hazardStatus_CAUTION (pireps : List PIREP) (sigmets : List SIGMET)
    (hnosev : ¬ ((∃ s ∈ sigmets, s.isActive = true ∧ s.severity = SigmetSeverity.SEVERE) ∨
      (∃ p ∈ pireps, p.isExpired = false ∧
        (p.turbulence = TurbIntensity.SEVERE ∨ p.icing = IcingIntensity.SEVERE))))
    (hcau : (∃ s ∈ sigmets, s.isActive = true) ∨
      (∃ p ∈ pireps, p.isExpired = false ∧
        (p.turbulence = TurbIntensity.MODERATE ∨ p.icing = IcingIntensity.MODERATE))) :
    hazardStatus pireps sigmets = OpStatus.CAUTION := by
  unfold hazardStatus
  have h1 : sigmets.filter
      (fun s => s.isActive && decide (s.severity = SigmetSeverity.SEVERE)) = [] := by
    rw [List.filter_eq_nil_iff]
    intro s hs
    simp only [Bool.and_eq_true, decide_eq_true_eq, not_and]
    intro hact hsev
    exact hnosev (Or.inl ⟨s, hs, hact, hsev⟩)
  have h2 : pireps.filter
      (fun p => !p.isExpired &&
        (decide (p.turbulence = TurbIntensity.SEVERE) ||
          decide (p.icing = IcingIntensity.SEVERE))) = [] := by
    rw [List.filter_eq_nil_iff]
    intro p hp
    simp only [Bool.and_eq_true, Bool.or_eq_true, Bool.not_eq_true', decide_eq_true_eq,
      not_and]
    intro hexp hsev
    exact hnosev (Or.inr ⟨p, hp, hexp, hsev⟩)
  have hcond : (sigmets.any (fun s => s.isActive) ||
      pireps.any (fun p => !p.isExpired &&
        (decide (p.turbulence = TurbIntensity.MODERATE) ||
          decide (p.icing = IcingIntensity.MODERATE)))) = true := by
    simp only [Bool.or_eq_true, List.any_eq_true]
    rcases hcau with ⟨s, hs, hact⟩ | ⟨p, hp, hexp, hmod⟩
    · exact Or.inl ⟨s, hs, hact⟩
    · refine Or.inr ⟨p, hp, ?_⟩
      rw [hexp]
      rcases hmod with h3 | h3 <;> simp [h3]
  rw [h1, h2]
  rw [if_neg (by simp), if_pos hcond]

/-- C2: for every classifier input whose METAR carries no error, a severe
signal (an active SEVERE SIGMET, or a non-expired PIREP with SEVERE
turbulence or icing) yields CRITICAL, and otherwise a caution signal (an
active SIGMET, or a non-expired PIREP with MODERATE turbulence or icing)
escalates the status to at least CAUTION. -/
theorem C2_thm (icao : List Char) (wd : WeatherData) (pireps : List PIREP)
    (sigmets : List SIGMET) (herr : wd.error = false) :
    (((∃ s ∈ sigmets, s.isActive = true ∧ s.severity = SigmetSeverity.SEVERE) ∨
       (∃ p ∈ pireps, p.isExpired = false ∧
         (p.turbulence = TurbIntensity.SEVERE ∨ p.icing = IcingIntensity.SEVERE))) →
      computeOperationalStatus icao wd pireps sigmets = OpStatus.CRITICAL) ∧
    ((¬ ((∃ s ∈ sigmets, s.isActive = true ∧ s.severity = SigmetSeverity.SEVERE) ∨
        (∃ p ∈ pireps, p.isExpired = false ∧
          (p.turbulence = TurbIntensity.SEVERE ∨ p.icing = IcingIntensity.SEVERE)))) →
      ((∃ s ∈ sigmets, s.isActive = true) ∨
       (∃ p ∈ pireps, p.isExpired = false ∧
         (p.turbulence = TurbIntensity.MODERATE ∨ p.icing = IcingIntensity.MODERATE))) →
      (computeOperationalStatus icao wd pireps sigmets = OpStatus.CAUTION ∨
       computeOperationalStatus icao wd pireps sigmets = OpStatus.CRITICAL)) := by
  unfold computeOperationalStatus
  by_cases he : (metarAdjust icao wd).error = true
  · rw [if_pos he]
    exact ⟨fun _ => rfl, fun _ _ => Or.inr rfl⟩
  · rw [if_neg he]
    constructor
    · intro hsev
      rw [hazardStatus_CRITICAL pireps sigmets hsev]
      exact metarStep_CRITICAL _
    · intro hnosev hcau
      rw [hazardStatus_CAUTION pireps sigmets hnosev hcau]
      exact metarStep_CAUTION _

/-- C2 witness (Scenario D): no METAR error, one active MODERATE SIGMET,
no PIREPs, METAR with 10 mi visibility and a 5000 ft ceiling; the status
is at least CAUTION by the theorem, and evaluates to exactly CAUTION. -/
theorem C2_witness :
    (computeOperationalStatus (("KJFK").data)
        { metar := ("KJFK 120000Z 10SM OVC050").data, error := false } []
        [{ severity := SigmetSeverity.MODERATE, isActive := true }] = OpStatus.CAUTION ∨
      computeOperationalStatus (("KJFK").data)
        { metar := ("KJFK 120000Z 10SM OVC050").data, error := false } []
        [{ severity := SigmetSeverity.MODERATE, isActive := true }] = OpStatus.CRITICAL) ∧
    computeOperationalStatus (("KJFK").data)
      { metar := ("KJFK 120000Z 10SM OVC050").data, error := false } []
      [{ severity := SigmetSeverity.MODERATE, isActive := true }] = OpStatus.CAUTION := by
  constructor
  · exact (C2_thm (("KJFK").data)
      { metar := ("KJFK 120000Z 10SM OVC050").data, error := false } []
      [{ severity := SigmetSeverity.MODERATE, isActive := true }] rfl).2
      (by decide) (by decide)
  · decide

/-- C3: if a classifier input is classified CAUTION, inserting an
additional active SEVERE SIGMET anywhere in the SIGMET list never yields a
result below CAUTION — the result can only rise to CRITICAL. -/
theorem C3_thm (icao : List Char) (wd : WeatherData) (pireps : List PIREP)
    (l1 l2 : List SIGMET) (s : SIGMET) (ha : s.isActive = true)
    (hsev : s.severity = SigmetSeverity.SEVERE)
    (hc : computeOperationalStatus icao wd pireps (l1 ++ l2) = OpStatus.CAUTION) :
    computeOperationalStatus icao wd pireps (l1 ++ s :: l2) = OpStatus.CAUTION ∨
    computeOperationalStatus icao wd pireps (l1 ++ s :: l2) = OpStatus.CRITICAL := by
  right
  have he : ¬ ((metarAdjust icao wd).error = true) := by
    intro h
    unfold computeOperationalStatus at hc
    rw [if_pos h] at hc
    exact absurd hc (by decide)
  unfold computeOperationalStatus
  rw [if_neg he]
  rw [hazardStatus_CRITICAL pireps (l1 ++ s :: l2)
    (Or.inl ⟨s, List.mem_append_right _ (List.mem_cons_self _ _), ha, hsev⟩)]
  exact metarStep_CRITICAL _

/-- C3 witness: a CAUTION input (one active MODERATE SIGMET) plus an
active SEVERE SIGMET inserted at the front. -/
theorem C3_witness :
    computeOperationalStatus (("KJFK").data)
      { metar := ("KJFK 120000Z 10SM OVC050").data, error := false } []
      ([] ++ ({ severity := SigmetSeverity.SEVERE, isActive := true } : SIGMET) ::
        [{ severity := SigmetSeverity.MODERATE, isActive := true }]) = OpStatus.CAUTION ∨
    computeOperationalStatus (("KJFK").data)
      { metar := ("KJFK 120000Z 10SM OVC050").data, error := false } []
      ([] ++ ({ severity := SigmetSeverity.SEVERE, isActive := true } : SIGMET) ::
        [{ severity := SigmetSeverity.MODERATE, isActive := true }]) = OpStatus.CRITICAL :=
  C3_thm (("KJFK").data) { metar := ("KJFK 120000Z 10SM OVC050").data, error := false } []
    [] [{ severity := SigmetSeverity.MODERATE, isActive := true }]
    { severity := SigmetSeverity.SEVERE, isActive := true } rfl rfl (by decide)

/-- Second component of a boolean-conditional pair whose flag mirrors the
condition. -/
theorem bool_ite_snd {α : Type} (b : Bool) (x y : α) :
    (if b = true then (x, true) else (y, false)).2 = b := by
  cases b <;> simp

/-- The hasViolations accumulator of the highlighter fold is the OR of the
initial flag with the per-line flags. -/
theorem highlight_foldl_snd (m : Minima) (ls : List (List Char)) (acc : List Char × Bool) :
    (ls.foldl (highlightStep m) acc).2 = (acc.2 || ls.any (fun l => (renderLine m l).2)) := by
  induction ls generalizing acc with
  | nil => simp
  | cons h t ih =>
      rw [List.foldl_cons, ih]
      simp [highlightStep, Bool.or_assoc]

/-- The html accumulator of the highlighter fold is the initial prefix
followed by the per-line fragments in order. -/
theorem highlight_foldl_fst (m : Minima) (ls : List (List Char)) (acc : List Char × Bool) :
    (ls.foldl (highlightStep m) acc).1 =
      acc.1 ++ (ls.map (fun l => (renderLine m l).1)).join := by
  induction ls generalizing acc with
  | nil => simp
  | cons h t ih =>
      rw [List.foldl_cons, ih]
      simp [highlightStep, List.append_assoc]

/-- The per-line violation flag computed by the highlighter agrees with the
claim-side predicate. -/
theorem renderLine_snd (m : Minima) (l : List Char) :
    (renderLine m l).2 = lineViolationSpec m l := by
  unfold renderLine lineViolationSpec
  by_cases h : (jsTrim l).isEmpty = true
  · have h0 : jsTrim l = [] := by simpa [List.isEmpty_iff] using h
    rw [if_pos h, h0]
    rfl
  · rw [if_neg h]
    dsimp only
    rw [bool_ite_snd]
    simp only [decide_not, Bool.not_and]

/-- A list trims to nil exactly when all its characters are whitespace. -/
theorem jsTrim_eq_nil_iff (s : List Char) :
    jsTrim s = [] ↔ ∀ c ∈ s, isJsSpace c = true := by
  unfold jsTrim
  constructor
  · intro h c hc
    rw [List.reverse_eq_nil_iff, List.dropWhile_eq_nil_iff] at h
    rw [← List.takeWhile_append_dropWhile (p := isJsSpace) (l := s)] at hc
    rcases List.mem_append.mp hc with h1 | h1
    · exact List.mem_takeWhile_imp h1
    · exact h c (List.mem_reverse.mpr h1)
  · intro h
    have h1 : s.dropWhile isJsSpace = [] :=
      List.dropWhile_eq_nil_iff.mpr (fun c hc => h c hc)
    rw [h1]
    rfl

/-- Every character of a piece of `splitLines` occurs in the original. -/
theorem splitLines_mem_subset (s : List Char) :
    ∀ l ∈ splitLines s, ∀ c ∈ l, c ∈ s := by
  induction s with
  | nil =>
      intro l hl c hc
      simp only [splitLines, List.mem_singleton] at hl
      subst hl
      cases hc
  | cons a t ih =>
      intro l hl c hc
      by_cases ha : a = '\n'
      · subst ha
        simp only [splitLines, if_pos rfl] at hl
        rcases List.mem_cons.mp hl with h | h
        · subst h; cases hc
        · exact List.mem_cons_of_mem _ (ih l h c hc)
      · simp only [splitLines, if_neg ha] at hl
        cases hr : splitLines t with
        | nil =>
            rw [hr] at hl
            simp only [List.mem_singleton] at hl
            subst hl
            rw [List.mem_singleton] at hc
            subst hc
            exact List.mem_cons_self _ _
        | cons hd tl =>
            rw [hr] at hl
            rcases List.mem_cons.mp hl with h | h
            · subst h
              rcases List.mem_cons.mp hc with h2 | h2
              · subst h2; exact List.mem_cons_self _ _
              · exact List.mem_cons_of_mem _
                  (ih hd (by rw [hr]; exact List.mem_cons_self _ _) c h2)
            · exact List.mem_cons_of_mem _
                (ih l (by rw [hr]; exact List.mem_cons_of_mem _ h) c hc)

/-- A whitespace-only line never counts as a violation. -/
theorem lineViolationSpec_of_trim_nil (m : Minima) (l : List Char) (h : jsTrim l = []) :
    lineViolationSpec m l = false := by
  unfold lineViolationSpec
  rw [h]
  rfl

/-- C4: a line is marked as a violation exactly when
`checkConditionsAgainstMinima` is false for its parsed conditions and at
least one of ceiling/visMiles was actually parsed (not both at the
infinity sentinel), and `hasViolations` is the OR of the per-line
violation flags. -/
theorem C4_thm (rawText : List Char) (m : Minima) :
    (highlightWeatherText rawText m).hasViolations =
      (splitLines rawText).any (fun l => lineViolationSpec m l) ∧
    ∀ l ∈ splitLines rawText, (renderLine m l).2 = lineViolationSpec m l := by
  refine ⟨?_, fun l _ => renderLine_snd m l⟩
  unfold highlightWeatherText
  by_cases h : (jsTrim rawText).isEmpty = true
  · rw [if_pos h]
    dsimp only
    symm
    rw [List.any_eq_false]
    intro l hl
    have hws : ∀ c ∈ rawText, isJsSpace c = true :=
      (jsTrim_eq_nil_iff rawText).mp (by simpa [List.isEmpty_iff] using h)
    have hlw : jsTrim l = [] :=
      (jsTrim_eq_nil_iff l).mpr
        (fun c hc => hws c (splitLines_mem_subset rawText l hl c hc))
    simp [lineViolationSpec_of_trim_nil m l hlw]
  · rw [if_neg h]
    dsimp only
    rw [highlight_foldl_snd]
    rw [Bool.false_or]
    have hfun : (fun l => (renderLine m l).2) = (fun l => lineViolationSpec m l) :=
      funext (renderLine_snd m)
    rw [hfun]

/-- C4 witness: the per-line flag at a concrete violating line taken from a
two-line report. -/
theorem C4_witness :
    (renderLine { ceiling := 500, vis := 3 } (("KJFK 1SM OVC001").data)).2 =
      lineViolationSpec { ceiling := 500, vis := 3 } (("KJFK 1SM OVC001").data) :=
  (C4_thm (("KJFK 1SM OVC001\nRMK AO2").data) { ceiling := 500, vis := 3 }).2
    (("KJFK 1SM OVC001").data) (by decide)

/-- C6 counterexample: the highlighter wraps the TRIMMED line text, so a
line with leading whitespace does not appear verbatim anywhere in the html
output — stripping the markup recovers the trimmed lines, not the original
input lines. -/
theorem C6_counterexample :
    highlightWeatherText (("  A").data) { ceiling := 0, vis := 0 } =
      { html := ("<div>A</div>").data, hasViolations := false } ∧
    ¬ (("  A").data <:+: ("<div>A</div>").data) := ⟨by decide, by decide⟩

/-- C6 amended: for every non-blank input, the html output is the in-order
concatenation of per-line wrapper fragments, and each line's TRIMMED text
appears verbatim inside its own wrapper fragment; stripping the added
markup therefore recovers the trimmed input lines. -/
theorem C6_amended_thm (rawText : List Char) (m : Minima) (h : jsTrim rawText ≠ []) :
    (highlightWeatherText rawText m).html =
      ((splitLines rawText).map (fun l => (renderLine m l).1)).join ∧
    ∀ l ∈ splitLines rawText, ∃ a b, (renderLine m l).1 = a ++ jsTrim l ++ b := by
  constructor
  · unfold highlightWeatherText
    rw [if_neg (by simpa [List.isEmpty_iff] using h)]
    dsimp only
    rw [highlight_foldl_fst]
    rfl
  · intro l _
    unfold renderLine
    by_cases ht : (jsTrim l).isEmpty = true
    · rw [if_pos ht]
      refine ⟨("<div>").data, ("</div>").data, ?_⟩
      have h0 : jsTrim l = [] := by simpa [List.isEmpty_iff] using ht
      rw [h0]
      rfl
    · rw [if_neg ht]
      dsimp only
      split
      · exact ⟨("<div class=\"text-red-400 font-bold\">").data, ("</div>").data, rfl⟩
      · exact ⟨("<div>").data, ("</div>").data, rfl⟩

/-- C6 amended witness: the wrapper fragment of a concrete line contains
its trimmed text. -/
theorem C6_witness :
    ∃ a b, (renderLine { ceiling := 500, vis := 1 } (("KJFK 1SM").data)).1 =
      a ++ jsTrim (("KJFK 1SM").data) ++ b :=
  (C6_amended_thm (("KJFK 1SM").data) { ceiling := 500, vis := 1 } (by decide)).2
    (("KJFK 1SM").data) (by decide)
